import Mathlib

/-!
Shallow embedding of the asynchronous orchestration core of the admin-notes
summarization service: the retry/recovery subsystem (retry-service.ts), the
notification listener (event-listener.ts), the AI provider abstraction
(base-provider.ts, claude-provider.ts, openai-provider.ts) and the summary
orchestrator (ai-service.ts).

Modelling conventions:
  - Time instants and durations are rationals measured in seconds.
  - The Math.random draw is an explicit rational parameter r with 0 <= r < 1.
  - The database is an explicit in-memory state (lists of rows) threaded
    through the operations; a Drizzle DELETE ... WHERE is a List.filter on
    the negated predicate, an INSERT is an append, an UPDATE of one row is a
    functional record update.
  - TypeScript exceptions are Except values; a try/catch that absorbs the
    error is a total function dispatching on the Except.
-/

/-- Status column of a failed_jobs row: failed, retrying or abandoned. -/
inductive JobStatus where
  | failed
  | retrying
  | abandoned
deriving DecidableEq, Repr

/-- Wire payload of the admin_notes_created channel. -/
structure AdminNoteCreatedEvent where
  id : Nat
  student_id : Nat
  author_id : Nat
  created_at : ℚ
deriving DecidableEq, Repr

/-- One admin_notes row as returned by the recent-notes query. -/
structure AdminNote where
  id : Nat
  studentId : Nat
  content : String
  createdAt : ℚ
deriving DecidableEq, Repr

/-- One ai_summaries row as inserted by the orchestrator. -/
structure AiSummary where
  studentId : Nat
  summary : String
  noteCount : Nat
  lastProcessedNoteId : Nat
deriving DecidableEq, Repr

/-- One failed_jobs row, owned by the retry subsystem. -/
structure FailedJob where
  id : Nat
  jobType : String
  payload : AdminNoteCreatedEvent
  error : String
  attemptCount : Nat
  maxRetries : Nat
  nextRetryAt : ℚ
  failedAt : ℚ
  lastAttemptedAt : Option ℚ
  status : JobStatus
deriving DecidableEq, Repr

/-- One job_retry_log row, appended on every failed retry attempt. -/
structure RetryLogEntry where
  failedJobId : Nat
  attemptNumber : Nat
  error : String
  attemptedAt : ℚ
deriving DecidableEq, Repr

namespace RetryService

/-- Fixed backoff ladder of retry-service.ts calculateNextRetry, in seconds:
1min, 5min, 15min, 30min, 1hr. -/
def delays : List ℚ := [60, 300, 900, 1800, 3600]

/-- Base delay selected by calculateNextRetry: index min(attemptCount-1, 4)
into the ladder. -/
def baseDelay (attemptCount : Nat) : ℚ :=
  delays.getD (min (attemptCount - 1) (delays.length - 1)) 0

/-- Jittered delay of calculateNextRetry: baseDelay * (1 + (r - 0.5) * 2 * 0.25)
where r is the Math.random draw. -/
def jitteredDelay (attemptCount : Nat) (r : ℚ) : ℚ :=
  baseDelay attemptCount * (1 + (r - 1/2) * 2 * (1/4))

/-- calculateNextRetry: now plus the jittered delay. -/
def calculateNextRetry (attemptCount : Nat) (r : ℚ) (now : ℚ) : ℚ :=
  now + jitteredDelay attemptCount r

/-- handleRetryFailure of retry-service.ts: appends one job_retry_log row
and either reschedules the job (status failed, incremented attemptCount,
fresh nextRetryAt) when newAttemptCount < maxRetries, or marks it abandoned.
Returns the updated row and the appended log row. -/
def handleRetryFailure (job : FailedJob) (errMsg : String) (r now : ℚ) :
    FailedJob × RetryLogEntry :=
  let newAttemptCount := job.attemptCount + 1
  let logEntry : RetryLogEntry :=
    { failedJobId := job.id
      attemptNumber := newAttemptCount
      error := errMsg
      attemptedAt := now }
  if newAttemptCount < job.maxRetries then
    ({ job with
        status := JobStatus.failed
        attemptCount := newAttemptCount
        nextRetryAt := calculateNextRetry newAttemptCount r now
        error := errMsg
        lastAttemptedAt := some now }, logEntry)
  else
    ({ job with
        status := JobStatus.abandoned
        attemptCount := newAttemptCount
        error := errMsg
        lastAttemptedAt := some now }, logEntry)

/-- Selection predicate of the processRetries scan:
status = failed AND nextRetryAt <= now AND attemptCount < maxRetries. -/
def isDueForRetry (job : FailedJob) (now : ℚ) : Bool :=
  job.status == JobStatus.failed
    && decide (job.nextRetryAt ≤ now)
    && decide (job.attemptCount < job.maxRetries)

/-- Batch selected by one processRetries scan: due jobs, capped at 10. -/
def selectJobsForRetry (jobs : List FailedJob) (now : ℚ) : List FailedJob :=
  (jobs.filter (fun job => isDueForRetry job now)).take 10

/-- executeJob of retry-service.ts: dispatch on jobType. The only recognized
type is admin_note_summary, whose handler processAdminNoteCreated absorbs
every failure internally and hence always resolves; any other type throws
an unknown-job-type error. -/
def executeJob (jobType : String) : Except String Unit :=
  if jobType = "admin_note_summary" then Except.ok ()
  else Except.error ("Unknown job type: " ++ jobType)

/-- retryJob of retry-service.ts, with the executeJob outcome passed
explicitly: sets status retrying and lastAttemptedAt, then on handler
success deletes the row (returns none) and appends no log; on handler
failure delegates to handleRetryFailure. -/
def retryJob (job : FailedJob) (execResult : Except String Unit) (r now : ℚ) :
    Option FailedJob × List RetryLogEntry :=
  let retrying := { job with status := JobStatus.retrying, lastAttemptedAt := some now }
  match execResult with
  | Except.ok _ => (none, [])
  | Except.error e =>
      let (updated, logEntry) := handleRetryFailure retrying e r now
      (some updated, [logEntry])

/-- One retry attempt as the code runs it: retryJob driven by executeJob on
the job's own jobType. -/
def retryJobStep (job : FailedJob) (r now : ℚ) : Option FailedJob × List RetryLogEntry :=
  retryJob job (executeJob job.jobType) r now

/-- retryJobById of retry-service.ts: look the row up by id (no filter on
status, nextRetryAt or attemptCount), fail if absent, else run the same
retry-handling path as the scheduler. -/
def retryJobById (jobs : List FailedJob) (jobId : Nat) (r now : ℚ) :
    Except String (Option FailedJob × List RetryLogEntry) :=
  match jobs.find? (fun job => job.id == jobId) with
  | none => Except.error ("Job " ++ toString jobId ++ " not found")
  | some job => Except.ok (retryJobStep job r now)

/-- Row predicate of the cleanupOldJobs DELETE:
status = abandoned AND failedAt <= now - daysOld days. -/
def isCleanupTarget (job : FailedJob) (now : ℚ) (daysOld : Nat) : Bool :=
  job.status == JobStatus.abandoned
    && decide (job.failedAt ≤ now - (daysOld : ℚ) * 86400)

/-- cleanupOldJobs of retry-service.ts: deletes every row matching
isCleanupTarget and returns the remaining rows with the deleted count
(drizzle rowCount). -/
def cleanupOldJobs (jobs : List FailedJob) (now : ℚ) (daysOld : Nat) :
    List FailedJob × Nat :=
  let kept := jobs.filter (fun job => !(isCleanupTarget job now daysOld))
  (kept, jobs.length - kept.length)

end RetryService

/-- Database state visible to the orchestrator and the retry subsystem:
the ai_summaries rows, the failed_jobs rows and the id the next inserted
failed_jobs row receives. -/
structure DbState where
  summaries : List AiSummary
  failedJobs : List FailedJob
  nextJobId : Nat
deriving DecidableEq, Repr

namespace RetryService

/-- recordFailedJob of retry-service.ts: inserts one failed_jobs row with
attemptCount 1, status failed and nextRetryAt = calculateNextRetry(1). -/
def recordFailedJob (st : DbState) (jobType : String)
    (payload : AdminNoteCreatedEvent) (errMsg : String) (maxRetries : Nat)
    (r now : ℚ) : DbState :=
  { st with
      failedJobs := st.failedJobs ++
        [{ id := st.nextJobId
           jobType := jobType
           payload := payload
           error := errMsg
           attemptCount := 1
           maxRetries := maxRetries
           nextRetryAt := calculateNextRetry 1 r now
           failedAt := now
           lastAttemptedAt := none
           status := JobStatus.failed }]
      nextJobId := st.nextJobId + 1 }

end RetryService

namespace AIService

/-- Summary row built by processAdminNoteCreated on success. -/
def mkSummary (event : AdminNoteCreatedEvent) (notes : List AdminNote)
    (content : String) : AiSummary :=
  { studentId := event.student_id
    summary := content
    noteCount := notes.length
    lastProcessedNoteId := event.id }

/-- Try-body of processAdminNoteCreated in ai-service.ts: with the recent
notes already fetched and the provider outcome given, a no-op when no notes
exist, otherwise either insert one summary row or propagate the provider
error to the surrounding catch. -/
def processBody (event : AdminNoteCreatedEvent) (notes : List AdminNote)
    (gen : Except String String) (st : DbState) : Except String DbState :=
  if notes.isEmpty then Except.ok st
  else
    match gen with
    | Except.ok content =>
        Except.ok { st with summaries := st.summaries ++ [mkSummary event notes content] }
    | Except.error e => Except.error e

/-- processAdminNoteCreated of ai-service.ts: the catch absorbs every failure
of the body by recording one failed job with jobType admin_note_summary and
maxRetries 3 (and best-effort notifying), so the call itself is total and
never re-throws to its caller. -/
def processAdminNoteCreated (event : AdminNoteCreatedEvent)
    (notes : List AdminNote) (gen : Except String String) (r now : ℚ)
    (st : DbState) : DbState :=
  match processBody event notes gen st with
  | Except.ok st' => st'
  | Except.error e =>
      RetryService.recordFailedJob st "admin_note_summary" event e 3 r now

end AIService

/-- Opaque handle standing for a constructed provider instance. -/
structure AiProviderHandle where
  pid : Nat
deriving DecidableEq, Repr

/-- Mutable fields of AIService touched by switchProvider. -/
structure AIServiceState where
  aiProvider : AiProviderHandle
  providerType : String
  model : String
deriving DecidableEq, Repr

namespace AiProviderFactory

/-- getDefaultModel of provider-factory.ts. -/
def getDefaultModel (t : String) : String :=
  if t = "claude" then "claude-3-5-sonnet-20241022"
  else if t = "openai" then "gpt-4-turbo"
  else if t = "azure-openai" then "gpt-4"
  else if t = "palm" then "text-bison-001"
  else if t = "cohere" then "command"
  else ""

end AiProviderFactory

namespace AIService

/-- switchProvider of ai-service.ts, with provider construction and the
candidate's health check given as oracles: on construction failure or a
false health check the error propagates and the state is returned
untouched; only on a healthy candidate are aiProvider, providerType and
model replaced. -/
def switchProvider (st : AIServiceState)
    (construction : Except String AiProviderHandle)
    (healthCheck : AiProviderHandle → Bool)
    (providerType : String) (model : Option String) :
    Except String Unit × AIServiceState :=
  match construction with
  | Except.error e => (Except.error e, st)
  | Except.ok p =>
      if healthCheck p then
        (Except.ok (),
          { aiProvider := p
            providerType := providerType
            model := model.getD (AiProviderFactory.getDefaultModel providerType) })
      else
        (Except.error "New provider failed health check", st)

end AIService

/-- Opaque handle standing for one live channel subscription. -/
structure Subscription where
  sid : Nat
deriving DecidableEq, Repr

/-- Mutable fields of EventListener in event-listener.ts. -/
structure ListenerState where
  isListening : Bool
  subscriptions : List Subscription
deriving DecidableEq, Repr

/-- True exactly on an Except.ok value. -/
def exceptIsOk {ε α : Type} : Except ε α → Bool
  | Except.ok _ => true
  | Except.error _ => false

namespace EventListener

/-- The three channels startListening subscribes to, in source order. -/
def channels : List String :=
  ["admin_notes_created", "summary_completed", "summary_failed"]

/-- Subscription loop of startListening: each successful listen call pushes
its handle onto this.subscriptions; the first failing call makes the whole
call return that error with the state as mutated so far (the catch in the
source only logs and re-throws, it removes nothing); after all succeed,
isListening is set true. -/
def startLoop (listen : String → Except String Subscription) :
    List String → ListenerState → Except String Unit × ListenerState
  | [], st => (Except.ok (), { st with isListening := true })
  | c :: rest, st =>
      match listen c with
      | Except.ok sub =>
          startLoop listen rest { st with subscriptions := st.subscriptions ++ [sub] }
      | Except.error e => (Except.error e, st)

/-- startListening of event-listener.ts: immediate no-op returning ok when
already listening, otherwise the subscription loop over the three
channels. -/
def startListening (st : ListenerState)
    (listen : String → Except String Subscription) :
    Except String Unit × ListenerState :=
  if st.isListening then (Except.ok (), st) else startLoop listen channels st

/-- isRunning of event-listener.ts. -/
def isRunning (st : ListenerState) : Bool := st.isListening

/-- Handles collected by the subscription loop before its first failure. -/
def subsBeforeFailure (listen : String → Except String Subscription) :
    List String → List Subscription
  | [] => []
  | c :: rest =>
      match listen c with
      | Except.ok sub => sub :: subsBeforeFailure listen rest
      | Except.error _ => []

end EventListener

/-- Uniform provider error of the AI provider abstraction: code, retryable
flag and optional HTTP status. -/
structure AiProviderError where
  code : String
  retryable : Bool
  statusCode : Option Nat
deriving DecidableEq, Repr

/-- mapHttpStatusToRetryable of base-provider.ts: retry on server errors
(>= 500), rate limits (429) and request timeouts (408). -/
def mapHttpStatusToRetryable (statusCode : Nat) : Bool :=
  500 ≤ statusCode || statusCode == 429 || statusCode == 408

namespace ClaudeProvider

/-- Shape of the raw error reaching ClaudeProvider.handleError: an Anthropic
SDK APIError carrying an optional HTTP status, a Node error carrying a code
string, or anything else. -/
inductive RawError where
  | apiError (status : Option Nat)
  | withCode (code : String)
  | other
deriving DecidableEq, Repr

/-- handleError of claude-provider.ts: APIError maps its status (500 when
absent) through mapHttpStatusToRetryable; ECONNRESET and ETIMEDOUT are
retryable network errors; everything else is a non-retryable unknown
error. -/
def handleError : RawError → AiProviderError
  | RawError.apiError status =>
      { code := "CLAUDE_API_ERROR"
        retryable := mapHttpStatusToRetryable (status.getD 500)
        statusCode := status }
  | RawError.withCode c =>
      if c = "ECONNRESET" ∨ c = "ETIMEDOUT" then
        { code := "NETWORK_ERROR", retryable := true, statusCode := none }
      else
        { code := "UNKNOWN_ERROR", retryable := false, statusCode := none }
  | RawError.other =>
      { code := "UNKNOWN_ERROR", retryable := false, statusCode := none }

end ClaudeProvider

/-- True when needle occurs at the start of hay. -/
def charsStartWith : List Char → List Char → Bool
  | [], _ => true
  | _ :: _, [] => false
  | a :: as, b :: bs => a == b && charsStartWith as bs

/-- True when needle occurs as a contiguous run anywhere in hay; this is the
String.prototype.includes check of the source. -/
def charsContain (needle : List Char) : List Char → Bool
  | [] => charsStartWith needle []
  | b :: bs => charsStartWith needle (b :: bs) || charsContain needle bs

namespace OpenAiProvider

/-- Shape of the raw error reaching OpenAiProvider.handleError: a fetch
AbortError (timeout), the HTTP error thrown by makeRequest (whose message is
"HTTP status: body"), a Node error carrying a code string, or anything
else. -/
inductive RawError where
  | abortError
  | httpError (status : Nat) (body : List Char)
  | withCode (code : String)
  | other
deriving DecidableEq, Repr

/-- Message built by makeRequest for a non-ok response. -/
def httpErrorMessage (status : Nat) (body : List Char) : List Char :=
  "HTTP ".toList ++ (toString status).toList ++ ": ".toList ++ body

/-- handleError of openai-provider.ts: AbortError is a retryable timeout;
an HTTP error is mapped through mapHttpStatusToRetryable ONLY when its
message contains the substring "HTTP 4" (the regex then re-parses the
leading status digits, which for makeRequest's fixed message shape is the
status itself); ECONNRESET and ETIMEDOUT are retryable network errors;
everything else — including every 5xx HTTP error, whose message starts
"HTTP 5" — is a non-retryable unknown error. -/
def handleError : RawError → AiProviderError
  | RawError.abortError =>
      { code := "TIMEOUT_ERROR", retryable := true, statusCode := none }
  | RawError.httpError status body =>
      if charsContain "HTTP 4".toList (httpErrorMessage status body) then
        { code := "OPENAI_API_ERROR"
          retryable := mapHttpStatusToRetryable status
          statusCode := some status }
      else
        { code := "UNKNOWN_ERROR", retryable := false, statusCode := none }
  | RawError.withCode c =>
      if c = "ECONNRESET" ∨ c = "ETIMEDOUT" then
        { code := "NETWORK_ERROR", retryable := true, statusCode := none }
      else
        { code := "UNKNOWN_ERROR", retryable := false, statusCode := none }
  | RawError.other =>
      { code := "UNKNOWN_ERROR", retryable := false, statusCode := none }

end OpenAiProvider


namespace Examples

/-- Concrete admin_notes_created event used in witnesses. -/
def ev0 : AdminNoteCreatedEvent :=
  { id := 1
    student_id := 2
    author_id := 3
    created_at := 0 }

/-- Concrete admin_notes row used in witnesses. -/
def note0 : AdminNote :=
  { id := 1
    studentId := 2
    content := "did well in class"
    createdAt := 0 }

/-- Empty database used in witnesses. -/
def db0 : DbState :=
  { summaries := []
    failedJobs := []
    nextJobId := 0 }

/-- Failed job with an unrecognized jobType, first attempt of three. -/
def jobBogus : FailedJob :=
  { id := 7
    jobType := "bogus"
    payload := ev0
    error := "e"
    attemptCount := 1
    maxRetries := 3
    nextRetryAt := 0
    failedAt := 0
    lastAttemptedAt := none
    status := JobStatus.failed }

/-- Failed job on its last permitted attempt: attemptCount = maxRetries - 1. -/
def jobAlmostDone : FailedJob :=
  { id := 8
    jobType := "admin_note_summary"
    payload := ev0
    error := "e"
    attemptCount := 2
    maxRetries := 3
    nextRetryAt := 0
    failedAt := 0
    lastAttemptedAt := none
    status := JobStatus.failed }

/-- Abandoned job whose failedAt sits exactly on the cleanup cutoff. -/
def jobAband : FailedJob :=
  { id := 10
    jobType := "admin_note_summary"
    payload := ev0
    error := "e"
    attemptCount := 3
    maxRetries := 3
    nextRetryAt := 0
    failedAt := 0
    lastAttemptedAt := none
    status := JobStatus.abandoned }

/-- Abandoned job with the recognized jobType, used for manual retry. -/
def jobAbandSummary : FailedJob :=
  { id := 9
    jobType := "admin_note_summary"
    payload := ev0
    error := "e"
    attemptCount := 3
    maxRetries := 3
    nextRetryAt := 0
    failedAt := 100
    lastAttemptedAt := none
    status := JobStatus.abandoned }

/-- Listener state before any start. -/
def listenerInit : ListenerState :=
  { isListening := false
    subscriptions := [] }

/-- Listener state after a successful start. -/
def listenerRunning : ListenerState :=
  { isListening := true
    subscriptions := [⟨1⟩] }

/-- Subscribe oracle whose first channel succeeds and whose second fails. -/
def listenFailSecond : String → Except String Subscription :=
  fun c =>
    if c = "admin_notes_created" then Except.ok ⟨1⟩
    else Except.error "subscribe failed"

/-- Concrete AIService state used in the switchProvider witness. -/
def svc0 : AIServiceState :=
  { aiProvider := ⟨0⟩
    providerType := "claude"
    model := "claude-3-5-sonnet-20241022" }

end Examples

/-- Ladder lookups are monotone in the index, within the ladder. -/
lemma delays_getD_mono (i j : Nat) (hij : i ≤ j) (hj : j ≤ 4) :
    RetryService.delays.getD i 0 ≤ RetryService.delays.getD j 0 := by
  interval_cases j <;> interval_cases i <;> decide

/-- Every ladder entry reachable by the clamped index is positive. -/
lemma delays_getD_pos (i : Nat) (h : i ≤ 4) :
    0 < RetryService.delays.getD i 0 := by
  interval_cases i <;> decide

/-- Every base delay is positive. -/
lemma baseDelay_pos (n : Nat) : 0 < RetryService.baseDelay n :=
  delays_getD_pos _ (Nat.min_le_right _ 4)

/-- C2: the retry backoff selects its base delay from the ladder 60, 300,
900, 1800, 3600 seconds with the index clamped to the last entry, so the
base delay is non-decreasing in the attempt number; the next-retry time is
now plus the jittered delay, and for every random draw r in [0,1) the
jittered delay stays within plus or minus 25 percent of the base; in
particular for the first failure the next retry lies between 45 and 75
seconds in the future. -/
theorem calculateNextRetry_spec (m n : Nat) (r now : ℚ)
    (hm : 1 ≤ m) (hmn : m ≤ n) (hr0 : 0 ≤ r) (hr1 : r < 1) :
    RetryService.baseDelay m ≤ RetryService.baseDelay n ∧
    (3/4) * RetryService.baseDelay n ≤ RetryService.jitteredDelay n r ∧
    RetryService.jitteredDelay n r ≤ (5/4) * RetryService.baseDelay n ∧
    RetryService.calculateNextRetry n r now = now + RetryService.jitteredDelay n r ∧
    now + 45 ≤ RetryService.calculateNextRetry 1 r now ∧
    RetryService.calculateNextRetry 1 r now ≤ now + 75 := by
  have hb : 0 < RetryService.baseDelay n := baseDelay_pos n
  have ht1 : (3/4 : ℚ) ≤ 1 + (r - 1/2) * 2 * (1/4) := by linarith
  have ht2 : 1 + (r - 1/2) * 2 * (1/4) ≤ (5/4 : ℚ) := by linarith
  refine ⟨?_, ?_, ?_, rfl, ?_, ?_⟩
  · show RetryService.delays.getD (min (m - 1) (RetryService.delays.length - 1)) 0
      ≤ RetryService.delays.getD (min (n - 1) (RetryService.delays.length - 1)) 0
    have hlen : RetryService.delays.length - 1 = 4 := rfl
    rw [hlen]
    exact delays_getD_mono _ _ (min_le_min (by omega) (le_refl 4)) (Nat.min_le_right _ 4)
  · unfold RetryService.jitteredDelay
    nlinarith
  · unfold RetryService.jitteredDelay
    nlinarith
  · have hb1 : RetryService.baseDelay 1 = 60 := rfl
    unfold RetryService.calculateNextRetry RetryService.jitteredDelay
    rw [hb1]
    nlinarith
  · have hb1 : RetryService.baseDelay 1 = 60 := rfl
    unfold RetryService.calculateNextRetry RetryService.jitteredDelay
    rw [hb1]
    nlinarith

/-- Witness for C2 at m = 1, n = 2, r = 1/2, now = 0. -/
theorem calculateNextRetry_spec_witness :
    RetryService.baseDelay 1 ≤ RetryService.baseDelay 2 ∧
    (3/4) * RetryService.baseDelay 2 ≤ RetryService.jitteredDelay 2 (1/2) ∧
    RetryService.jitteredDelay 2 (1/2) ≤ (5/4) * RetryService.baseDelay 2 ∧
    RetryService.calculateNextRetry 2 (1/2) 0 = 0 + RetryService.jitteredDelay 2 (1/2) ∧
    (0 : ℚ) + 45 ≤ RetryService.calculateNextRetry 1 (1/2) 0 ∧
    RetryService.calculateNextRetry 1 (1/2) 0 ≤ (0 : ℚ) + 75 :=
  calculateNextRetry_spec 1 2 (1/2) 0 (by norm_num) (by norm_num) (by norm_num) (by norm_num)

/-- C1: for every valid note-created event, processAdminNoteCreated is a
total function of the database state (the catch absorbs every failure, so
nothing is re-thrown) that either appends exactly one summary row leaving
the failed jobs untouched, or records exactly one new FailedJob leaving the
summaries untouched, and when zero historical notes exist it is a no-op. -/
theorem processAdminNoteCreated_spec (event : AdminNoteCreatedEvent)
    (notes : List AdminNote) (gen : Except String String) (r now : ℚ)
    (st : DbState) :
    (notes.isEmpty = true →
      AIService.processAdminNoteCreated event notes gen r now st = st) ∧
    (notes.isEmpty = false → ∀ content, gen = Except.ok content →
      (AIService.processAdminNoteCreated event notes gen r now st).summaries
        = st.summaries ++ [AIService.mkSummary event notes content] ∧
      (AIService.processAdminNoteCreated event notes gen r now st).failedJobs
        = st.failedJobs) ∧
    (notes.isEmpty = false → ∀ e, gen = Except.error e →
      (AIService.processAdminNoteCreated event notes gen r now st).failedJobs.length
        = st.failedJobs.length + 1 ∧
      (AIService.processAdminNoteCreated event notes gen r now st).summaries
        = st.summaries) := by
  refine ⟨?_, ?_, ?_⟩
  · intro h
    simp [AIService.processAdminNoteCreated, AIService.processBody, h]
  · intro h content hgen
    subst hgen
    simp [AIService.processAdminNoteCreated, AIService.processBody, h]
  · intro h e hgen
    subst hgen
    simp [AIService.processAdminNoteCreated, AIService.processBody, h,
      RetryService.recordFailedJob]

/-- Witness for C1: a provider failure on a one-note history records exactly
one FailedJob and no summary, and an empty history is a no-op. -/
theorem processAdminNoteCreated_spec_witness :
    (AIService.processAdminNoteCreated Examples.ev0 [Examples.note0]
        (Except.error "provider down") 0 0 Examples.db0).failedJobs.length
      = Examples.db0.failedJobs.length + 1 ∧
    (AIService.processAdminNoteCreated Examples.ev0 [Examples.note0]
        (Except.error "provider down") 0 0 Examples.db0).summaries
      = Examples.db0.summaries ∧
    AIService.processAdminNoteCreated Examples.ev0 []
        (Except.error "provider down") 0 0 Examples.db0 = Examples.db0 := by
  have h := processAdminNoteCreated_spec Examples.ev0 [Examples.note0]
    (Except.error "provider down") 0 0 Examples.db0
  have h2 := h.2.2 (by decide) "provider down" rfl
  exact ⟨h2.1, h2.2,
    (processAdminNoteCreated_spec Examples.ev0 [] (Except.error "provider down")
      0 0 Examples.db0).1 rfl⟩

/-- C3: a FailedJob on its last permitted attempt (attemptCount =
maxRetries - 1) that fails once more is set to status abandoned with
attemptCount = maxRetries; the abandoned row never satisfies the scheduler
scan predicate and is therefore never selected by any future scan. -/
theorem handleRetryFailure_abandon_spec (job : FailedJob) (errMsg : String)
    (r now : ℚ) (h : job.attemptCount + 1 = job.maxRetries) :
    (RetryService.handleRetryFailure job errMsg r now).1.status = JobStatus.abandoned ∧
    (RetryService.handleRetryFailure job errMsg r now).1.attemptCount
      = job.attemptCount + 1 ∧
    (∀ t, RetryService.isDueForRetry
      (RetryService.handleRetryFailure job errMsg r now).1 t = false) ∧
    (∀ jobs t, (RetryService.handleRetryFailure job errMsg r now).1
      ∉ RetryService.selectJobsForRetry jobs t) := by
  have hnot : ¬ (job.attemptCount + 1 < job.maxRetries) := by omega
  have hdef : (RetryService.handleRetryFailure job errMsg r now).1
      = { job with
            status := JobStatus.abandoned
            attemptCount := job.attemptCount + 1
            error := errMsg
            lastAttemptedAt := some now } := by
    simp [RetryService.handleRetryFailure, hnot]
  refine ⟨by rw [hdef], by rw [hdef], ?_, ?_⟩
  · intro t
    rw [hdef]
    simp [RetryService.isDueForRetry]
  · intro jobs t hmem
    have hsub : (RetryService.handleRetryFailure job errMsg r now).1
        ∈ jobs.filter (fun j => RetryService.isDueForRetry j t) :=
      List.take_subset _ _ hmem
    have hdue := (List.mem_filter.mp hsub).2
    rw [hdef] at hdue
    simp [RetryService.isDueForRetry] at hdue

/-- Witness for C3 at a concrete job with attemptCount 2 of maxRetries 3. -/
theorem handleRetryFailure_abandon_spec_witness :
    (RetryService.handleRetryFailure Examples.jobAlmostDone "boom" 0 0).1.status
      = JobStatus.abandoned ∧
    RetryService.isDueForRetry
      (RetryService.handleRetryFailure Examples.jobAlmostDone "boom" 0 0).1 0 = false := by
  have h := handleRetryFailure_abandon_spec Examples.jobAlmostDone "boom" 0 0 (by decide)
  exact ⟨h.1, h.2.2.1 0⟩

/-- C4 (code bug): the shared base mapping classifies HTTP 500 as retryable,
and the Claude provider forwards a 500 APIError to it, but the OpenAI
provider's handleError only consults the mapping when the thrown message
contains the substring "HTTP 4"; a 500 response, whose message is
"HTTP 500: body", therefore falls through to UNKNOWN_ERROR with
retryable = false, contradicting the uniform claim that every status of
500 or more is retryable for both providers. -/
theorem openai_5xx_not_retryable :
    mapHttpStatusToRetryable 500 = true ∧
    (ClaudeProvider.handleError (ClaudeProvider.RawError.apiError (some 500))).retryable
      = true ∧
    OpenAiProvider.handleError
        (OpenAiProvider.RawError.httpError 500 "Internal Server Error".toList)
      = { code := "UNKNOWN_ERROR", retryable := false, statusCode := none } ∧
    (OpenAiProvider.handleError
        (OpenAiProvider.RawError.httpError 429 "Too Many Requests".toList)).retryable
      = true ∧
    (OpenAiProvider.handleError
        (OpenAiProvider.RawError.httpError 404 "Not Found".toList)).retryable
      = false := by
  refine ⟨rfl, rfl, ?_, ?_, ?_⟩ <;> decide

/-- C6 counterexample: retrying a job whose jobType is the unrecognized
string bogus does fail immediately with the unknown-job-type error, but the
job is NOT left unprogressed: the failure takes the ordinary
handleRetryFailure path and its attemptCount advances from 1 to 2. -/
theorem unknownJobType_progresses_cex :
    RetryService.executeJob "bogus" = Except.error "Unknown job type: bogus" ∧
    ((RetryService.retryJobStep Examples.jobBogus (1/2) 100).1.map
      FailedJob.attemptCount) = some 2 ∧
    Examples.jobBogus.attemptCount = 1 := by
  refine ⟨rfl, rfl, rfl⟩

/-- C6 as amended: an unrecognized jobType fails immediately with the
unknown-job-type error, and that failure is handled like any other retry
failure: the job's attemptCount is incremented and it is rescheduled
(status failed) or abandoned according to the retry budget, rather than
being left unprogressed. -/
theorem executeJob_unknown_spec (job : FailedJob) (r now : ℚ)
    (h : job.jobType ≠ "admin_note_summary") :
    RetryService.executeJob job.jobType
      = Except.error ("Unknown job type: " ++ job.jobType) ∧
    ((RetryService.retryJobStep job r now).1.map FailedJob.attemptCount)
      = some (job.attemptCount + 1) ∧
    ((RetryService.retryJobStep job r now).1.map FailedJob.status)
      = some (if job.attemptCount + 1 < job.maxRetries
              then JobStatus.failed else JobStatus.abandoned) := by
  have hexec : RetryService.executeJob job.jobType
      = Except.error ("Unknown job type: " ++ job.jobType) := by
    simp [RetryService.executeJob, h]
  refine ⟨hexec, ?_, ?_⟩ <;>
    · simp only [RetryService.retryJobStep, RetryService.retryJob, hexec,
        RetryService.handleRetryFailure]
      by_cases hc : job.attemptCount + 1 < job.maxRetries <;> simp [hc]

/-- Witness for the amended C6 at the concrete bogus job. -/
theorem executeJob_unknown_spec_witness :
    RetryService.executeJob Examples.jobBogus.jobType
      = Except.error ("Unknown job type: " ++ Examples.jobBogus.jobType) ∧
    ((RetryService.retryJobStep Examples.jobBogus 0 0).1.map FailedJob.attemptCount)
      = some (Examples.jobBogus.attemptCount + 1) := by
  have h := executeJob_unknown_spec Examples.jobBogus 0 0 (by decide)
  exact ⟨h.1, h.2.1⟩

/-- When some channel in the remaining list fails to subscribe, the
subscription loop returns an error, leaves isListening as it was, and leaves
the handles collected before the failure appended to the subscription
list. -/
lemma startLoop_failure (listen : String → Except String Subscription) :
    ∀ (cs : List String) (st : ListenerState),
      (∃ c ∈ cs, exceptIsOk (listen c) = false) →
      exceptIsOk (EventListener.startLoop listen cs st).1 = false ∧
      (EventListener.startLoop listen cs st).2.isListening = st.isListening ∧
      (EventListener.startLoop listen cs st).2.subscriptions
        = st.subscriptions ++ EventListener.subsBeforeFailure listen cs := by
  intro cs
  induction cs with
  | nil =>
      intro st h
      rcases h with ⟨c, hc, _⟩
      simp at hc
  | cons c rest ih =>
      intro st h
      cases hlc : listen c with
      | ok sub =>
          have hrest : ∃ c' ∈ rest, exceptIsOk (listen c') = false := by
            rcases h with ⟨c', hc', hfail⟩
            rcases List.mem_cons.mp hc' with heq | hmem
            · subst heq
              rw [hlc] at hfail
              simp [exceptIsOk] at hfail
            · exact ⟨c', hmem, hfail⟩
          have ihr := ih { st with subscriptions := st.subscriptions ++ [sub] } hrest
          refine ⟨?_, ?_, ?_⟩
          · simpa [EventListener.startLoop, hlc] using ihr.1
          · simpa [EventListener.startLoop, hlc] using ihr.2.1
          · have h3 := ihr.2.2
            simp only [EventListener.startLoop, hlc]
            rw [h3]
            simp [EventListener.subsBeforeFailure, hlc, List.append_assoc]
      | error e =>
          refine ⟨?_, ?_, ?_⟩ <;>
            simp [EventListener.startLoop, hlc, exceptIsOk,
              EventListener.subsBeforeFailure]

/-- C5 counterexample: starting from a fresh listener with a subscribe
oracle whose first channel succeeds and whose second fails, startListening
propagates the error and leaves running false, but the subscription
established for the first channel is NOT torn down: it stays in the
internal subscription list. -/
theorem startListening_no_teardown_cex :
    (EventListener.startListening Examples.listenerInit Examples.listenFailSecond).1
      = Except.error "subscribe failed" ∧
    (EventListener.startListening Examples.listenerInit Examples.listenFailSecond).2.subscriptions
      = [⟨1⟩] ∧
    (EventListener.startListening Examples.listenerInit Examples.listenFailSecond).2.subscriptions
      ≠ [] ∧
    EventListener.isRunning
      (EventListener.startListening Examples.listenerInit Examples.listenFailSecond).2
      = false := by
  refine ⟨rfl, rfl, by decide, rfl⟩

/-- C5 as amended: if subscribing to any configured channel fails,
startListening propagates the error to the caller and running remains
false, but the subscriptions already established during that call are not
torn down: they remain appended to the internal subscription list. -/
theorem startListening_failure_spec (st : ListenerState)
    (listen : String → Except String Subscription)
    (hrun : st.isListening = false)
    (hfail : ∃ c ∈ EventListener.channels, exceptIsOk (listen c) = false) :
    exceptIsOk (EventListener.startListening st listen).1 = false ∧
    (EventListener.startListening st listen).2.isListening = false ∧
    (EventListener.startListening st listen).2.subscriptions
      = st.subscriptions
        ++ EventListener.subsBeforeFailure listen EventListener.channels := by
  have h := startLoop_failure listen EventListener.channels st hfail
  rw [EventListener.startListening, if_neg (by simp [hrun])]
  exact ⟨h.1, hrun ▸ h.2.1, h.2.2⟩

/-- Witness for the amended C5 at the concrete fail-on-second oracle. -/
theorem startListening_failure_spec_witness :
    exceptIsOk (EventListener.startListening Examples.listenerInit
      Examples.listenFailSecond).1 = false ∧
    (EventListener.startListening Examples.listenerInit
      Examples.listenFailSecond).2.isListening = false ∧
    (EventListener.startListening Examples.listenerInit
      Examples.listenFailSecond).2.subscriptions
      = Examples.listenerInit.subscriptions
        ++ EventListener.subsBeforeFailure Examples.listenFailSecond
            EventListener.channels :=
  startListening_failure_spec Examples.listenerInit Examples.listenFailSecond
    rfl ⟨"summary_completed", by decide, rfl⟩

/-- C7: switchProvider first constructs and health-checks the candidate;
on construction failure or a false health check the call fails and the
previously active provider state is returned untouched; only on a healthy
candidate are the active provider reference, provider type and model
replaced. -/
theorem switchProvider_spec (st : AIServiceState)
    (construction : Except String AiProviderHandle)
    (healthCheck : AiProviderHandle → Bool)
    (providerType : String) (model : Option String) :
    (∀ e, construction = Except.error e →
      AIService.switchProvider st construction healthCheck providerType model
        = (Except.error e, st)) ∧
    (∀ p, construction = Except.ok p → healthCheck p = false →
      AIService.switchProvider st construction healthCheck providerType model
        = (Except.error "New provider failed health check", st)) ∧
    (∀ p, construction = Except.ok p → healthCheck p = true →
      AIService.switchProvider st construction healthCheck providerType model
        = (Except.ok (),
            { aiProvider := p
              providerType := providerType
              model := model.getD (AiProviderFactory.getDefaultModel providerType) })) := by
  refine ⟨?_, ?_, ?_⟩
  · intro e he
    subst he
    rfl
  · intro p hp hh
    subst hp
    simp [AIService.switchProvider, hh]
  · intro p hp hh
    subst hp
    simp [AIService.switchProvider, hh]

/-- Witness for C7: an unhealthy candidate leaves the concrete state
untouched, a healthy one replaces provider, type and default model. -/
theorem switchProvider_spec_witness :
    AIService.switchProvider Examples.svc0 (Except.ok ⟨1⟩) (fun _ => false)
        "openai" none
      = (Except.error "New provider failed health check", Examples.svc0) ∧
    AIService.switchProvider Examples.svc0 (Except.ok ⟨1⟩) (fun _ => true)
        "openai" none
      = (Except.ok (),
          { aiProvider := ⟨1⟩
            providerType := "openai"
            model := "gpt-4-turbo" }) := by
  refine ⟨?_, ?_⟩
  · exact (switchProvider_spec Examples.svc0 (Except.ok ⟨1⟩) (fun _ => false)
      "openai" none).2.1 ⟨1⟩ rfl rfl
  · exact (switchProvider_spec Examples.svc0 (Except.ok ⟨1⟩) (fun _ => true)
      "openai" none).2.2 ⟨1⟩ rfl rfl

/-- C8: startListening is idempotent: called while the listener is already
running it returns ok, changes nothing (the subscription list is exactly
what it was, so no channel gains a second subscription), and isRunning
stays true. -/
theorem startListening_idempotent (st : ListenerState)
    (listen : String → Except String Subscription)
    (h : EventListener.isRunning st = true) :
    EventListener.startListening st listen = (Except.ok (), st) ∧
    EventListener.isRunning (EventListener.startListening st listen).2 = true := by
  have h' : st.isListening = true := h
  constructor
  · simp [EventListener.startListening, h']
  · simp [EventListener.startListening, h', EventListener.isRunning]

/-- Witness for C8 at a concrete running listener state. -/
theorem startListening_idempotent_witness :
    EventListener.startListening Examples.listenerRunning Examples.listenFailSecond
      = (Except.ok (), Examples.listenerRunning) ∧
    EventListener.isRunning
      (EventListener.startListening Examples.listenerRunning
        Examples.listenFailSecond).2 = true :=
  startListening_idempotent Examples.listenerRunning Examples.listenFailSecond rfl

/-- Keeping and removing by a predicate partitions the length of a list. -/
lemma length_filter_not_add {α : Type} (p : α → Bool) (l : List α) :
    (l.filter fun a => !(p a)).length + (l.filter p).length = l.length := by
  induction l with
  | nil => rfl
  | cons a t ih =>
      by_cases hp : p a <;> simp [List.filter, hp] <;> omega

/-- C9 counterexample: an abandoned job whose failedAt is exactly now minus
daysOld days — hence NOT strictly older than the cutoff — is nevertheless
deleted by cleanupOldJobs (the source compares with lte), so the claim's
strict "older than" reading is false at this input. -/
theorem cleanupOldJobs_boundary_cex :
    RetryService.cleanupOldJobs [Examples.jobAband] 2592000 30 = ([], 1) ∧
    ¬ (Examples.jobAband.failedAt < 2592000 - (30 : ℚ) * 86400) := by
  have htarget : RetryService.isCleanupTarget Examples.jobAband 2592000 30 = true := by
    simp [RetryService.isCleanupTarget, Examples.jobAband]
    norm_num
  constructor
  · simp [RetryService.cleanupOldJobs, List.filter, htarget]
  · norm_num [Examples.jobAband]

/-- C9 as amended: cleanupOldJobs deletes exactly the FailedJob rows with
status abandoned and failedAt at or before now minus daysOld days (the
comparison is non-strict), returns the number of rows deleted, and leaves
every other row — failed or retrying jobs, and abandoned jobs after the
cutoff — in place. -/
theorem cleanupOldJobs_spec (jobs : List FailedJob) (now : ℚ) (daysOld : Nat) :
    (∀ job, job ∈ (RetryService.cleanupOldJobs jobs now daysOld).1 ↔
      (job ∈ jobs ∧
        ¬ (job.status = JobStatus.abandoned ∧
           job.failedAt ≤ now - (daysOld : ℚ) * 86400))) ∧
    (RetryService.cleanupOldJobs jobs now daysOld).2
      = (jobs.filter
          (fun job => RetryService.isCleanupTarget job now daysOld)).length := by
  constructor
  · intro job
    simp [RetryService.cleanupOldJobs, List.mem_filter,
      RetryService.isCleanupTarget, not_and, and_congr_right_iff]
    intro _
    tauto
  · have hpart := length_filter_not_add
      (fun job => RetryService.isCleanupTarget job now daysOld) jobs
    simp only [RetryService.cleanupOldJobs]
    omega

/-- Witness for the amended C9: a non-abandoned job survives the cleanup and
the deleted count over a one-job store of it is zero. -/
theorem cleanupOldJobs_spec_witness :
    Examples.jobBogus ∈ (RetryService.cleanupOldJobs [Examples.jobBogus] 2592000 30).1 ∧
    (RetryService.cleanupOldJobs [Examples.jobBogus] 2592000 30).2 = 0 := by
  have h := cleanupOldJobs_spec [Examples.jobBogus] 2592000 30
  refine ⟨(h.1 Examples.jobBogus).mpr ⟨by simp, ?_⟩, h.2.trans (by decide)⟩
  intro hc
  exact absurd hc.1 (by decide)

/-- C10: retryJobById applies the retry-handling path to any stored job with
the requested id, with no filter on status, nextRetryAt or attemptCount —
only a non-existent id makes the call fail — and when the dispatched
handler succeeds (the recognized admin_note_summary type) the job row is
deleted, resurrecting even a terminally abandoned job. -/
theorem retryJobById_spec (jobs : List FailedJob) (jobId : Nat) (r now : ℚ) :
    ((∀ job ∈ jobs, job.id ≠ jobId) →
      RetryService.retryJobById jobs jobId r now
        = Except.error ("Job " ++ toString jobId ++ " not found")) ∧
    (∀ job, jobs.find? (fun j => j.id == jobId) = some job →
      RetryService.retryJobById jobs jobId r now
        = Except.ok (RetryService.retryJobStep job r now) ∧
      (job.jobType = "admin_note_summary" →
        (RetryService.retryJobStep job r now).1 = none)) := by
  constructor
  · intro hnone
    have hfind : jobs.find? (fun j => j.id == jobId) = none := by
      rw [List.find?_eq_none]
      intro x hx
      simpa using hnone x hx
    simp [RetryService.retryJobById, hfind]
  · intro job hfind
    refine ⟨by simp [RetryService.retryJobById, hfind], ?_⟩
    intro htype
    simp [RetryService.retryJobStep, RetryService.retryJob,
      RetryService.executeJob, htype]

/-- Witness for C10: a terminally abandoned job (attemptCount = maxRetries)
is still picked up by a manual retry for its id and, its handler type being
the recognized one, is deleted; over an empty store the same id fails. -/
theorem retryJobById_spec_witness :
    RetryService.retryJobById [Examples.jobAbandSummary] 9 0 0
      = Except.ok (RetryService.retryJobStep Examples.jobAbandSummary 0 0) ∧
    (RetryService.retryJobStep Examples.jobAbandSummary 0 0).1 = none ∧
    RetryService.retryJobById [] 9 0 0
      = Except.error ("Job " ++ toString 9 ++ " not found") := by
  have h := (retryJobById_spec [Examples.jobAbandSummary] 9 0 0).2
    Examples.jobAbandSummary (by decide)
  exact ⟨h.1, h.2 rfl, (retryJobById_spec [] 9 0 0).1 (by simp)⟩
